import Mathlib

/-!
Verification of `bokeh/sphinxext/_internal/bokeh_roles.py` and
`release/__init__.py` (bokeh repository fragment).

The docutils/Sphinx framework objects are modelled explicitly: a role
handler receives the raw source text, the literal text between the role
delimiters, and a line number, and returns a pair of a node list and a
system-message list.  File-reading handlers (`bokeh_minpy`,
`bokeh_requires`) receive the parsed project descriptor as an explicit
argument: each invocation reads the file fresh, so the handler is a pure
function of the descriptor contents at call time.  Formatting `options`
(CSS classes attached via `set_classes`) do not affect any of the
properties below and are not modelled on nodes.
-/

namespace Bokeh

/-- docutils system-message severity levels (only `error` is used here). -/
inductive MsgLevel where
  | info
  | warning
  | error
deriving DecidableEq, Repr

/-- A docutils system message, as produced by `inliner.reporter.error(text, line=lineno)`. -/
structure SystemMessage where
  level : MsgLevel
  text : String
  line : Nat
deriving DecidableEq, Repr

/-- The docutils node shapes used by `bokeh_roles.py`: `nodes.reference`
(a hyperlink with raw text, visible text, and `refuri` target),
`inliner.problematic` (marker node for a reported error), `nodes.Text`,
`nodes.bullet_list` and `nodes.list_item`. -/
inductive Node where
  | reference (rawtext : String) (text : String) (refuri : String)
  | problematic (rawtext : String) (text : String)
  | text (s : String)
  | bulletList (items : List Node)
  | listItem (child : Node)

/-- A role handler result: list of nodes to insert, list of system messages. -/
abbrev RoleResult := List Node × List SystemMessage

/-- Is a node a hyperlink (docutils `reference`) node? -/
def Node.isLink : Node → Bool
  | .reference _ _ _ => true
  | _ => false

/-- Visible text of an inline node (for `reference`/`problematic`/`text`). -/
def Node.visibleText : Node → String
  | .reference _ t _ => t
  | .problematic _ t => t
  | .text s => s
  | .bulletList _ => ""
  | .listItem c => c.visibleText

/-- Target URL of a `reference` node (empty for other nodes). -/
def Node.target : Node → String
  | .reference _ _ u => u
  | _ => ""

/-! ### Modelling of the Python runtime functions the source calls

`int(text)`, `str(n)`, `repr(text)` (the `{text!r}` interpolation),
`str.lstrip(chars)` and `docutils.utils.unescape`. -/

/-- ASCII decimal digit test (`'0'` to `'9'`). -/
def isPyDigit (c : Char) : Bool := 48 ≤ c.toNat && c.toNat ≤ 57

/-- Whitespace stripped by Python `int()` around its argument.
CPython strips characters for which `Py_UNICODE_ISSPACE` holds: ASCII
9 to 13, 28 to 31, space, U+0085 and the Unicode space separators.  The
rarely-seen non-ASCII space separators beyond U+0085 are not modelled;
no claim below depends on which exact characters count as whitespace. -/
def isPyIntSpace (c : Char) : Bool :=
  (9 ≤ c.toNat && c.toNat ≤ 13) || (28 ≤ c.toNat && c.toNat ≤ 31) ||
    c.toNat = 32 || c.toNat = 133

/-- After the first digit of a Python integer literal string: digits with
single underscores allowed only between digits (`"1_0"` is valid,
`"1__0"`, `"1_"` are not). -/
def pyDigitsRest : List Char → Bool
  | [] => true
  | c :: cs =>
    if c = '_' then
      match cs with
      | [] => false
      | d :: ds => isPyDigit d && pyDigitsRest ds
    else
      isPyDigit c && pyDigitsRest cs

/-- A valid (unsigned) digit part for Python `int()`: nonempty, starts
with a digit, underscores only between digits. -/
def pyDigits : List Char → Bool
  | [] => false
  | c :: cs => isPyDigit c && pyDigitsRest cs

/-- Decimal value of a digit list (underscores already removed). -/
def digitsToNat (cs : List Char) : Nat :=
  cs.foldl (fun a c => 10 * a + (c.toNat - 48)) 0

/-- Model of Python `int(text)` for decimal strings: strip surrounding
whitespace, allow one optional sign, then a valid digit part.  Returns
`none` where CPython raises `ValueError`.  (CPython additionally accepts
non-ASCII decimal digits, e.g. fullwidth digits; those are not modelled,
and no claim below depends on them.) -/
def pyInt (s : String) : Option Int :=
  let cs := ((s.toList.dropWhile isPyIntSpace).reverse.dropWhile isPyIntSpace).reverse
  match cs with
  | '+' :: rest =>
      if pyDigits rest then some (Int.ofNat (digitsToNat (rest.filter (fun c => c ≠ '_')))) else none
  | '-' :: rest =>
      if pyDigits rest then some (-(Int.ofNat (digitsToNat (rest.filter (fun c => c ≠ '_'))))) else none
  | _ =>
      if pyDigits cs then some (Int.ofNat (digitsToNat (cs.filter (fun c => c ≠ '_')))) else none

/-- The decimal digit character for `n < 10` (and `'9'` above, unused). -/
def digitChar (n : Nat) : Char :=
  match n with
  | 0 => '0' | 1 => '1' | 2 => '2' | 3 => '3' | 4 => '4'
  | 5 => '5' | 6 => '6' | 7 => '7' | 8 => '8' | _ => '9'

/-- Decimal digit expansion with an explicit recursion bound (`fuel`);
structural recursion so that the kernel can evaluate it.  One digit is
produced per division by 10, so any `fuel ≥ n` is sufficient. -/
def natToDigitsFuel : Nat → Nat → List Char
  | 0, n => [digitChar n]
  | fuel + 1, n =>
    if n < 10 then [digitChar n]
    else natToDigitsFuel fuel (n / 10) ++ [digitChar (n % 10)]

/-- Decimal digit list of a natural number, most significant first. -/
def natToDigits (n : Nat) : List Char := natToDigitsFuel n n

/-- Model of Python `str(n)` for an integer `n`. -/
def pyStr (n : Int) : String :=
  if n < 0 then String.mk ('-' :: natToDigits n.natAbs)
  else String.mk (natToDigits n.natAbs)

/-- The single-quote character (U+0027). -/
def squote : Char := '\x27'

/-- Quote character chosen by Python `repr` for a string: single quote,
unless the string contains a single quote but no double quote. -/
def reprQuote (s : String) : Char :=
  if s.toList.contains squote && !(s.toList.contains '"') then '"' else squote

/-- Lowercase hexadecimal digit character for `n < 16`. -/
def hexChar (n : Nat) : Char :=
  match n with
  | 10 => 'a' | 11 => 'b' | 12 => 'c' | 13 => 'd' | 14 => 'e' | 15 => 'f'
  | m => digitChar m

/-- How Python `repr` renders one character inside quote `q`: backslash
and the quote character get a backslash escape, tab/newline/carriage
return their two-character escapes, other ASCII control characters and
DEL a `\xHH` escape.  (CPython also escapes non-printable characters
above U+007F; those are kept verbatim here, and every theorem below that
depends on `repr` either uses concrete ASCII input or restricts to
printable ASCII, where this model is exact.) -/
def reprEscapeChar (q c : Char) : List Char :=
  if c == '\\' || c == q then ['\\', c]
  else if c == '\t' then ['\\', 't']
  else if c == '\n' then ['\\', 'n']
  else if c == '\r' then ['\\', 'r']
  else if c.toNat < 32 || c.toNat == 127 then
    ['\\', 'x', hexChar (c.toNat / 16), hexChar (c.toNat % 16)]
  else [c]

/-- Model of Python `repr(s)` for a string `s` (the `{s!r}` interpolation). -/
def pyRepr (s : String) : String :=
  let q := reprQuote s
  String.mk (q :: ((s.toList.map (reprEscapeChar q)).flatten ++ [q]))

/-- Model of Python `s.lstrip(chars)`: drop the longest leading run of
characters that belong to `chars`. -/
def pyLstrip (chars : List Char) (s : String) : String :=
  String.mk (s.toList.dropWhile (fun c => chars.contains c))

/-- Does `sep` occur at the head of `xs`? -/
def leadsWith : List Char → List Char → Bool
  | [], _ => true
  | _ :: _, [] => false
  | a :: as, b :: bs => a == b && leadsWith as bs

/-- Remove every (leftmost-first, non-overlapping) occurrence of the
two-character separator `[a, b]` from a list — the effect of Python's
`''.join(text.split(sep))` for a two-character `sep`. -/
def removeSeq2 (a b : Char) : List Char → List Char
  | [] => []
  | [c] => [c]
  | c :: d :: cs =>
    if c == a && d == b then removeSeq2 a b cs
    else c :: removeSeq2 a b (d :: cs)

/-- Remove every occurrence of the character `a` from a list — the
effect of Python's `''.join(text.split(sep))` for a one-character `sep`. -/
def removeChar (a : Char) : List Char → List Char
  | [] => []
  | c :: cs => if c == a then removeChar a cs else c :: removeChar a cs

/-- Model of `docutils.utils.unescape(text)` (default arguments): remove
`"\x00 "`, then `"\x00\n"`, then `"\x00"`.  NUL bytes are docutils'
internal markers for backslash-escaped characters. -/
def unescape (s : String) : String :=
  String.mk (removeChar '\x00'
    (removeSeq2 '\x00' '\n' (removeSeq2 '\x00' ' ' s.toList)))

/-! ### The embedded source: `bokeh_roles.py` and `release/__init__.py` -/

/-- `BOKEH_GH` from `bokeh_roles.py`. -/
def BOKEH_GH : String := "https://github.com/bokeh/bokeh"

/-- `_make_gh_link_node(app, rawtext, role, kind, api_type, id, options)`:
a reference node with visible text `kind + unescape(id)` and target
`f"{BOKEH_GH}/{api_type}/{id}"`. -/
def make_gh_link_node (rawtext _role kind api_type id : String) : Node :=
  Node.reference rawtext (kind ++ unescape id) (BOKEH_GH ++ "/" ++ api_type ++ "/" ++ id)

/-- `bokeh_commit`: one link node, kind `"commit "`, api path `"commit"`,
no validation. -/
def bokeh_commit (rawtext text : String) (_lineno : Nat) : RoleResult :=
  ([make_gh_link_node rawtext "commit" "commit " "commit" text], [])

/-- The issue role's error message (`f"Github issue number must be a
number greater than or equal to 1; {text!r} is invalid."`). -/
def issueErrorText (text : String) : String :=
  "Github issue number must be a number greater than or equal to 1; " ++
    pyRepr text ++ " is invalid."

/-- `bokeh_issue`: parse `text` with `int`; on `ValueError` or a value
`<= 0`, report one error and return one `problematic` node; otherwise
one link node with kind `"#"`, api path `"issues"`, id `str(issue_num)`. -/
def bokeh_issue (rawtext text : String) (lineno : Nat) : RoleResult :=
  match pyInt text with
  | some issue_num =>
      if issue_num ≤ 0 then
        let msg : SystemMessage := ⟨.error, issueErrorText text, lineno⟩
        ([Node.problematic rawtext rawtext], [msg])
      else
        ([make_gh_link_node rawtext "issue" "#" "issues" (pyStr issue_num)], [])
  | none =>
      let msg : SystemMessage := ⟨.error, issueErrorText text, lineno⟩
      ([Node.problematic rawtext rawtext], [msg])

/-- The project descriptor (`pyproject.toml`) data the roles consume:
the `project.requires-python` constraint string and the ordered
`project.dependencies` list.  TOML parsing is the external `toml`
library; handlers receive the parsed content of the file as read fresh
on the invocation being modelled. -/
structure PyProject where
  requires_python : String
  dependencies : List String
deriving DecidableEq, Repr

/-- `bokeh_minpy`: emit `pyproject["project"]["requires-python"].lstrip(">=")`
as a single text node. -/
def bokeh_minpy (pyproject : PyProject) : RoleResult :=
  ([Node.text (pyLstrip ['>', '='] pyproject.requires_python)], [])

/-- The pull role's error message (`f"Github pull request number must be
a number greater than or equal to 1; {text!r} is invalid."`). -/
def pullErrorText (text : String) : String :=
  "Github pull request number must be a number greater than or equal to 1; " ++
    pyRepr text ++ " is invalid."

/-- `bokeh_pull`: like `bokeh_issue` but kind `"pull request "`, api path
`"pull"`, and the pull-request error message. -/
def bokeh_pull (rawtext text : String) (lineno : Nat) : RoleResult :=
  match pyInt text with
  | some issue_num =>
      if issue_num ≤ 0 then
        let msg : SystemMessage := ⟨.error, pullErrorText text, lineno⟩
        ([Node.problematic rawtext rawtext], [msg])
      else
        ([make_gh_link_node rawtext "pull" "pull request " "pull" (pyStr issue_num)], [])
  | none =>
      let msg : SystemMessage := ⟨.error, pullErrorText text, lineno⟩
      ([Node.problematic rawtext rawtext], [msg])

/-- `bokeh_requires`: a bullet list with one `list_item(Text(dep))` per
entry of `pyproject["project"]["dependencies"]`, in file order. -/
def bokeh_requires (pyproject : PyProject) : RoleResult :=
  ([Node.bulletList (pyproject.dependencies.map
      (fun dep => Node.listItem (Node.text dep)))], [])

/-- `bokeh_tree`: tag is the configured `version`, replaced by `"main"`
when it contains `"-"`; one reference node with visible text `text` and
target `f"{BOKEH_GH}/tree/{tag}/{text}"`. -/
def bokeh_tree (rawtext text : String) (version : String) : RoleResult :=
  let tag := if version.toList.contains '-' then "main" else version
  ([Node.reference rawtext text (BOKEH_GH ++ "/tree/" ++ tag ++ "/" ++ text)], [])

/-- `BOKEHJS_BUCKETS` from `release/__init__.py`: an immutable pair
sequence (a Python tuple, embedded as a Lean list constant — neither is
mutable by any operation). -/
def BOKEHJS_BUCKETS : List (String × String) :=
  [("cdn.bokeh.org", "us-east-1"), ("cdn-backup.bokeh.org", "us-west-2")]

/-! ### Helper predicates for stating the claims -/

/-- Does `sub` occur somewhere in `xs` as a contiguous block? -/
def containsSeq (sub : List Char) : List Char → Bool
  | [] => sub.isEmpty
  | c :: cs => leadsWith sub (c :: cs) || containsSeq sub cs

/-- Substring occurrence test on strings. -/
def strContains (s sub : String) : Bool := containsSeq sub.toList s.toList

/-- A character that Python `repr` renders verbatim inside a
single-quoted string: printable ASCII, not a backslash and not a quote. -/
def cleanChar (c : Char) : Bool :=
  32 ≤ c.toNat && c.toNat < 127 && !(c == '\\') && !(c == squote) && !(c == '"')

/-! ### Basic string and list lemmas -/

theorem mk_toList (s : String) : String.mk s.toList = s := by
  cases s; rfl

theorem toList_append (a b : String) : (a ++ b).toList = a.toList ++ b.toList := by
  cases a; cases b; rfl

theorem strAppend_assoc (a b c : String) : a ++ b ++ c = a ++ (b ++ c) := by
  cases a; cases b; cases c
  show String.mk _ = String.mk _
  simp [String.instAppend, String.append]

theorem leadsWith_append (xs ys : List Char) : leadsWith xs (xs ++ ys) = true := by
  induction xs with
  | nil => rfl
  | cons a as ih => simp [leadsWith, ih]

theorem containsSeq_parts (sub x y : List Char) :
    containsSeq sub (x ++ (sub ++ y)) = true := by
  induction x with
  | nil =>
    cases sub with
    | nil =>
      cases y with
      | nil => rfl
      | cons c cs => simp [containsSeq, leadsWith]
    | cons s ss =>
      simp only [containsSeq, List.nil_append, Bool.or_eq_true]
      exact Or.inl (leadsWith_append (s :: ss) y)
  | cons c cs ih =>
    simp [containsSeq, ih]

theorem strContains_parts (a sub b : String) :
    strContains (a ++ sub ++ b) sub = true := by
  unfold strContains
  have h : (a ++ sub ++ b).toList = a.toList ++ (sub.toList ++ b.toList) := by
    rw [toList_append, toList_append, List.append_assoc]
  rw [h]
  exact containsSeq_parts sub.toList a.toList b.toList

/-! ### `str(n)` produces pure ASCII digits, so `unescape` leaves it alone -/

theorem digitChar_range (m : Nat) :
    48 ≤ (digitChar m).toNat ∧ (digitChar m).toNat ≤ 57 := by
  unfold digitChar
  split <;> decide

theorem natToDigitsFuel_range (fuel : Nat) :
    ∀ n : Nat, ∀ c ∈ natToDigitsFuel fuel n, 48 ≤ c.toNat ∧ c.toNat ≤ 57 := by
  induction fuel with
  | zero =>
    intro n c hc
    simp only [natToDigitsFuel, List.mem_singleton] at hc
    subst hc
    exact digitChar_range n
  | succ fuel ih =>
    intro n c hc
    rw [natToDigitsFuel] at hc
    split at hc
    · simp only [List.mem_singleton] at hc
      subst hc
      exact digitChar_range n
    · rw [List.mem_append] at hc
      rcases hc with h | h
      · exact ih (n / 10) c h
      · simp only [List.mem_singleton] at h
        subst h
        exact digitChar_range (n % 10)

theorem natToDigits_range (n : Nat) :
    ∀ c ∈ natToDigits n, 48 ≤ c.toNat ∧ c.toNat ≤ 57 :=
  natToDigitsFuel_range n n

theorem pyStr_no_null (n : Int) : '\x00' ∉ (pyStr n).toList := by
  intro hmem
  unfold pyStr at hmem
  split at hmem
  · rw [show (String.mk ('-' :: natToDigits n.natAbs)).toList
        = '-' :: natToDigits n.natAbs from rfl] at hmem
    rcases List.mem_cons.mp hmem with h | h
    · exact absurd h (by decide)
    · have := natToDigits_range n.natAbs _ h
      rw [show ('\x00').toNat = 0 from rfl] at this
      omega
  · rw [show (String.mk (natToDigits n.natAbs)).toList = natToDigits n.natAbs from rfl] at hmem
    have := natToDigits_range n.natAbs _ hmem
    rw [show ('\x00').toNat = 0 from rfl] at this
    omega

theorem removeChar_of_not_mem (a : Char) :
    ∀ xs : List Char, a ∉ xs → removeChar a xs = xs := by
  intro xs
  induction xs with
  | nil => intro _; rfl
  | cons c cs ih =>
    intro h
    have hc : (c == a) = false := beq_eq_false_iff_ne.mpr
      (fun he => h (by rw [← he]; exact List.mem_cons_self c cs))
    have ih2 := ih (fun hm => h (List.mem_cons_of_mem c hm))
    simp [removeChar, hc, ih2]

theorem removeSeq2_of_not_mem (a b : Char) :
    ∀ xs : List Char, a ∉ xs → removeSeq2 a b xs = xs := by
  intro xs
  induction xs with
  | nil => intro _; rfl
  | cons c cs ih =>
    intro h
    have hc : (c == a) = false := beq_eq_false_iff_ne.mpr
      (fun he => h (by rw [← he]; exact List.mem_cons_self c cs))
    cases cs with
    | nil => rfl
    | cons d ds =>
      have ih2 := ih (fun hm => h (List.mem_cons_of_mem c hm))
      simp [removeSeq2, hc, ih2]

theorem unescape_of_not_null (s : String) (h : '\x00' ∉ s.toList) :
    unescape s = s := by
  unfold unescape
  rw [removeSeq2_of_not_mem '\x00' ' ' s.toList h,
    removeSeq2_of_not_mem '\x00' '\n' s.toList h,
    removeChar_of_not_mem '\x00' s.toList h]
  exact mk_toList s

theorem unescape_pyStr (n : Int) : unescape (pyStr n) = pyStr n :=
  unescape_of_not_null (pyStr n) (pyStr_no_null n)

/-! ### `repr` of a clean printable-ASCII string is just the string in quotes -/

theorem reprQuote_clean (s : String) (h : ∀ c ∈ s.toList, cleanChar c = true) :
    reprQuote s = squote := by
  unfold reprQuote
  cases hq : s.toList.contains squote with
  | false => simp
  | true =>
    exfalso
    have hmem : squote ∈ s.toList := by simpa using hq
    have := h squote hmem
    exact absurd this (by decide)

theorem reprEscapeChar_clean (c : Char) (h : cleanChar c = true) :
    reprEscapeChar squote c = [c] := by
  simp only [cleanChar, Bool.and_eq_true, decide_eq_true_eq, Bool.not_eq_true'] at h
  obtain ⟨⟨⟨⟨h32, h127⟩, hbs⟩, hsq⟩, hdq⟩ := h
  have hlt : decide (c.toNat < 32) = false := decide_eq_false (by omega)
  have h127f : (c.toNat == 127) = false := beq_eq_false_iff_ne.mpr (by omega)
  have htab : (c == '\t') = false := beq_eq_false_iff_ne.mpr
    (fun he => by rw [he] at h32; exact absurd h32 (by decide))
  have hnl : (c == '\n') = false := beq_eq_false_iff_ne.mpr
    (fun he => by rw [he] at h32; exact absurd h32 (by decide))
  have hcr : (c == '\r') = false := beq_eq_false_iff_ne.mpr
    (fun he => by rw [he] at h32; exact absurd h32 (by decide))
  simp [reprEscapeChar, hbs, hsq, htab, hnl, hcr, hlt, h127f]

theorem flatten_map_of_singleton (f : Char → List Char) :
    ∀ l : List Char, (∀ c ∈ l, f c = [c]) → (l.map f).flatten = l := by
  intro l
  induction l with
  | nil => intro _; rfl
  | cons c cs ih =>
    intro h
    simp only [List.map_cons, List.flatten_cons]
    rw [h c (List.mem_cons_self c cs), ih (fun d hd => h d (List.mem_cons_of_mem c hd))]
    rfl

theorem pyRepr_clean (s : String) (h : ∀ c ∈ s.toList, cleanChar c = true) :
    pyRepr s = String.mk (squote :: (s.toList ++ [squote])) := by
  simp only [pyRepr]
  rw [reprQuote_clean s h]
  rw [flatten_map_of_singleton (reprEscapeChar squote) s.toList
    (fun c hc => reprEscapeChar_clean c (h c hc))]

/-! ### Occurrence of the offending input inside the error messages -/

theorem issueErrorText_contains_repr (t : String) :
    strContains (issueErrorText t) (pyRepr t) = true := by
  unfold issueErrorText
  exact strContains_parts _ _ _

theorem pullErrorText_contains_repr (t : String) :
    strContains (pullErrorText t) (pyRepr t) = true := by
  unfold pullErrorText
  exact strContains_parts _ _ _

theorem contains_clean_of_contains_repr (a b t : String)
    (h : ∀ c ∈ t.toList, cleanChar c = true) :
    strContains (a ++ pyRepr t ++ b) t = true := by
  unfold strContains
  rw [toList_append, toList_append, pyRepr_clean t h]
  have hsplit : (a.toList ++ (String.mk (squote :: (t.toList ++ [squote]))).toList) ++ b.toList
      = (a.toList ++ [squote]) ++ (t.toList ++ ([squote] ++ b.toList)) := by
    show (a.toList ++ (squote :: (t.toList ++ [squote]))) ++ b.toList = _
    simp [List.append_assoc]
  rw [hsplit]
  exact containsSeq_parts t.toList (a.toList ++ [squote]) ([squote] ++ b.toList)

theorem issueErrorText_contains_clean (t : String)
    (h : ∀ c ∈ t.toList, cleanChar c = true) :
    strContains (issueErrorText t) t = true := by
  unfold issueErrorText
  exact contains_clean_of_contains_repr _ _ t h

theorem pullErrorText_contains_clean (t : String)
    (h : ∀ c ∈ t.toList, cleanChar c = true) :
    strContains (pullErrorText t) t = true := by
  unfold pullErrorText
  exact contains_clean_of_contains_repr _ _ t h

/-! ### Collapsing the f-string URL shapes to the forms used in the claims -/

theorem issues_url (s : String) :
    BOKEH_GH ++ "/" ++ "issues" ++ "/" ++ s = BOKEH_GH ++ "/issues/" ++ s :=
  congrArg (fun x => x ++ s) (by decide)

theorem pull_url (s : String) :
    BOKEH_GH ++ "/" ++ "pull" ++ "/" ++ s = BOKEH_GH ++ "/pull/" ++ s :=
  congrArg (fun x => x ++ s) (by decide)

theorem commit_url (s : String) :
    BOKEH_GH ++ "/" ++ "commit" ++ "/" ++ s = BOKEH_GH ++ "/commit/" ++ s :=
  congrArg (fun x => x ++ s) (by decide)

theorem tree_main_url (s : String) :
    BOKEH_GH ++ "/tree/" ++ "main" ++ "/" ++ s = BOKEH_GH ++ "/tree/main/" ++ s :=
  congrArg (fun x => x ++ s) (by decide)

/-- The issue error message is a common template instantiated with the
word "issue". -/
theorem issueErrorText_split (t : String) :
    issueErrorText t = "Github issue" ++
      (" number must be a number greater than or equal to 1; " ++ pyRepr t ++ " is invalid.") := by
  unfold issueErrorText
  rw [show ("Github issue number must be a number greater than or equal to 1; " : String)
      = "Github issue" ++ " number must be a number greater than or equal to 1; " by decide]
  simp only [strAppend_assoc]

/-- The pull error message is the same template instantiated with the
words "pull request". -/
theorem pullErrorText_split (t : String) :
    pullErrorText t = "Github pull request" ++
      (" number must be a number greater than or equal to 1; " ++ pyRepr t ++ " is invalid.") := by
  unfold pullErrorText
  rw [show ("Github pull request number must be a number greater than or equal to 1; " : String)
      = "Github pull request" ++ " number must be a number greater than or equal to 1; " by decide]
  simp only [strAppend_assoc]

/-! ### Claim theorems -/

/-- C1: for every text input that `int()` parses to some `n > 0`,
`bokeh_issue` returns exactly one link node with visible text `"#" + str(n)`
and target URL ending in `/issues/` followed by `str(n)`, together with
zero system messages; the identifier in the link is the parsed integer
restringified (so formatting of the input, e.g. leading zeros, is
canonicalized away — the node depends on the input only through `n`). -/
theorem C1_issue_success (rawtext t : String) (lineno : Nat) (n : Int)
    (hparse : pyInt t = some n) (hpos : 0 < n) :
    bokeh_issue rawtext t lineno =
      ([Node.reference rawtext ("#" ++ pyStr n) (BOKEH_GH ++ "/issues/" ++ pyStr n)], []) ∧
    ((bokeh_issue rawtext t lineno).1.filter Node.isLink).length = 1 ∧
    (bokeh_issue rawtext t lineno).2 = [] ∧
    (∃ pre, BOKEH_GH ++ "/issues/" ++ pyStr n = pre ++ ("/issues/" ++ pyStr n)) := by
  have hne : ¬ n ≤ 0 := by omega
  have h1 : bokeh_issue rawtext t lineno =
      ([Node.reference rawtext ("#" ++ pyStr n) (BOKEH_GH ++ "/issues/" ++ pyStr n)], []) := by
    unfold bokeh_issue
    rw [hparse]
    simp only [if_neg hne]
    unfold make_gh_link_node
    rw [unescape_pyStr, issues_url]
  refine ⟨h1, ?_, ?_, ⟨BOKEH_GH, strAppend_assoc _ _ _⟩⟩
  · rw [h1]; rfl
  · rw [h1]

/-- C1 witness: the input `"007"` parses to `7` and yields the
canonicalized link `#7` at `/issues/7`. -/
theorem C1_issue_success_witness :
    pyInt "007" = some 7 ∧ pyStr 7 = "7" ∧
    bokeh_issue "r" "007" 1 =
      ([Node.reference "r" ("#" ++ pyStr 7) (BOKEH_GH ++ "/issues/" ++ pyStr 7)], []) :=
  ⟨by decide, by decide, (C1_issue_success "r" "007" 1 7 (by decide) (by decide)).1⟩

/-- C4 counterexample: `bokeh_commit` passes the id through
`utils.unescape`, which deletes NUL markers, so for the input `"a\x00b"`
the visible text is `"commit ab"`, not `"commit " + t` as the claim
states for every `t`. -/
theorem C4_counterexample :
    (bokeh_commit "r" "a\x00b" 0).1.map Node.visibleText = ["commit ab"] ∧
    "commit ab" ≠ "commit a\x00b" := by
  exact ⟨rfl, by decide⟩

/-- C4 (amended): `bokeh_commit` is total: for every `t` it returns
exactly one reference node with visible text `"commit " + unescape(t)`
and target ending in `/commit/t`, with zero messages; whenever `t`
contains no NUL escape markers the visible text is exactly
`"commit " + t`. -/
theorem C4_commit_total (rawtext t : String) (lineno : Nat) :
    bokeh_commit rawtext t lineno =
      ([Node.reference rawtext ("commit " ++ unescape t) (BOKEH_GH ++ "/commit/" ++ t)], []) ∧
    (∃ pre, BOKEH_GH ++ "/commit/" ++ t = pre ++ ("/commit/" ++ t)) ∧
    ('\x00' ∉ t.toList →
      (bokeh_commit rawtext t lineno).1.map Node.visibleText = ["commit " ++ t]) := by
  have h1 : bokeh_commit rawtext t lineno =
      ([Node.reference rawtext ("commit " ++ unescape t) (BOKEH_GH ++ "/commit/" ++ t)], []) := by
    unfold bokeh_commit make_gh_link_node
    rw [commit_url]
  refine ⟨h1, ⟨BOKEH_GH, strAppend_assoc _ _ _⟩, ?_⟩
  intro h0
  rw [h1]
  simp [Node.visibleText, unescape_of_not_null t h0]

/-- C4 witness: a NUL-free commit hash fragment is displayed verbatim. -/
theorem C4_commit_total_witness :
    (bokeh_commit "r" "bf19bcb" 2).1.map Node.visibleText = ["commit " ++ "bf19bcb"] :=
  (C4_commit_total "r" "bf19bcb" 2).2.2 (by decide)

/-- C5: `bokeh_tree` returns one reference node whose visible text is
exactly the path fragment and whose target is `BOKEH_GH/tree/tag/p`,
where the tag is `"main"` if the configured version contains a hyphen
and the version verbatim otherwise; version `"3.5.0"` with path
`"examples"` targets `.../tree/3.5.0/examples` and version
`"3.5.0-dev1"` targets `.../tree/main/examples`. -/
theorem C5_tree (rawtext p v : String) :
    (bokeh_tree rawtext p v).2 = [] ∧
    (bokeh_tree rawtext p v).1.map Node.visibleText = [p] ∧
    (v.toList.contains '-' = true →
      bokeh_tree rawtext p v =
        ([Node.reference rawtext p (BOKEH_GH ++ "/tree/main/" ++ p)], [])) ∧
    (v.toList.contains '-' = false →
      bokeh_tree rawtext p v =
        ([Node.reference rawtext p (BOKEH_GH ++ "/tree/" ++ v ++ "/" ++ p)], [])) ∧
    (∃ pre, (bokeh_tree rawtext "examples" "3.5.0").1.map Node.target
      = [pre ++ "/tree/3.5.0/examples"]) ∧
    (∃ pre, (bokeh_tree rawtext "examples" "3.5.0-dev1").1.map Node.target
      = [pre ++ "/tree/main/examples"]) := by
  refine ⟨rfl, rfl, ?_, ?_, ⟨BOKEH_GH, rfl⟩, ⟨BOKEH_GH, rfl⟩⟩
  · intro h
    unfold bokeh_tree
    rw [h]
    simp only [if_true]
    rw [tree_main_url]
  · intro h
    unfold bokeh_tree
    rw [h]
    simp only [Bool.false_eq_true, if_false]

/-- C5 witness: a development version selects the `main` branch. -/
theorem C5_tree_witness :
    "3.5.0-dev1".toList.contains '-' = true ∧
    bokeh_tree "r" "examples" "3.5.0-dev1" =
      ([Node.reference "r" "examples" (BOKEH_GH ++ "/tree/main/" ++ "examples")], []) :=
  ⟨by decide, (C5_tree "r" "examples" "3.5.0-dev1").2.2.1 (by decide)⟩

/-- C9: the mirror bucket table is a fixed sequence of exactly two
(hostname, region) pairs, primary `cdn.bokeh.org`/`us-east-1` before
backup `cdn-backup.bokeh.org`/`us-west-2`.  It is a Python tuple
embedded as an immutable Lean constant; no operation in the fragment
(or in the embedding) can modify it. -/
theorem C9_buckets :
    BOKEHJS_BUCKETS = [("cdn.bokeh.org", "us-east-1"), ("cdn-backup.bokeh.org", "us-west-2")] ∧
    BOKEHJS_BUCKETS.length = 2 ∧
    BOKEHJS_BUCKETS.head? = some ("cdn.bokeh.org", "us-east-1") ∧
    BOKEHJS_BUCKETS.getLast? = some ("cdn-backup.bokeh.org", "us-west-2") :=
  ⟨rfl, rfl, rfl, rfl⟩

/-- C10: `bokeh_minpy` removes exactly the longest leading run of `'>'`
and `'='` characters (any number, in any order) from the constraint
string; a constraint starting with any other character, such as
`"<=3.10"` or `"~=3.10"`, is emitted unchanged. -/
theorem C10_minpy_strips_only_gt_eq :
    (∀ (pre : List Char) (rest : String) (deps : List String),
      pre.all (fun c => (['>', '='] : List Char).contains c) = true →
      rest.toList.head?.all (fun c => !((['>', '='] : List Char).contains c)) = true →
      bokeh_minpy ⟨String.mk (pre ++ rest.toList), deps⟩ = ([Node.text rest], [])) ∧
    bokeh_minpy ⟨"<=3.10", []⟩ = ([Node.text "<=3.10"], []) ∧
    bokeh_minpy ⟨"~=3.10", []⟩ = ([Node.text "~=3.10"], []) := by
  refine ⟨?_, rfl, rfl⟩
  intro pre rest deps hpre hrest
  have key : pyLstrip ['>', '='] (String.mk (pre ++ rest.toList)) = rest := by
    unfold pyLstrip
    rw [show (String.mk (pre ++ rest.toList)).toList = pre ++ rest.toList from rfl]
    rw [List.dropWhile_append]
    have h1 : pre.dropWhile (fun c => (['>', '='] : List Char).contains c) = [] := by
      simp only [List.dropWhile_eq_nil_iff]
      intro c hc
      exact List.all_eq_true.mp hpre c hc
    have h2 : rest.toList.dropWhile (fun c => (['>', '='] : List Char).contains c)
        = rest.toList := by
      cases hr : rest.toList with
      | nil => rfl
      | cons c cs =>
        have hcf : (['>', '='] : List Char).contains c = false := by
          have hh := hrest
          rw [hr] at hh
          simpa using hh
        rw [List.dropWhile_cons, hcf]
        simp
    rw [h1, h2]
    simp only [List.isEmpty_nil, if_true]
    exact mk_toList rest
  unfold bokeh_minpy
  rw [key]

/-- C10 witness: a run of `'>'` and `'='` characters in mixed order is
stripped, leaving the bare version. -/
theorem C10_minpy_witness :
    bokeh_minpy ⟨">==3.10", []⟩ = ([Node.text "3.10"], []) :=
  C10_minpy_strips_only_gt_eq.1 ['>', '=', '='] "3.10" [] (by decide) (by decide)

/-- C7 counterexample: `lstrip(">=")` strips only `'>'` and `'='`, not
every comparison operator character: a descriptor declaring
`requires-python = "<=3.10"` is emitted as `"<=3.10"` with its leading
comparison operator retained, not as `"3.10"`. -/
theorem C7_counterexample :
    bokeh_minpy ⟨"<=3.10", ["numpy"]⟩ = ([Node.text "<=3.10"], []) ∧
    "<=3.10" ≠ "3.10" :=
  ⟨rfl, by decide⟩

/-- C7 (amended): `bokeh_minpy` is a pure function of the descriptor
contents as read on the invocation being modelled (read fresh each call,
no caching); it strips exactly the leading run of `'>'` and `'='`
characters from the `requires-python` constraint and emits the remainder
as a single plain-text node with zero messages; in particular
`">=3.10"` yields exactly `"3.10"`. -/
theorem C7_minpy (d : PyProject) :
    (bokeh_minpy d).2 = [] ∧
    bokeh_minpy d = ([Node.text (pyLstrip ['>', '='] d.requires_python)], []) ∧
    (∃ pre : List Char,
      d.requires_python.toList = pre ++ (pyLstrip ['>', '='] d.requires_python).toList ∧
      (∀ c ∈ pre, c = '>' ∨ c = '=')) ∧
    bokeh_minpy ⟨">=3.10", []⟩ = ([Node.text "3.10"], []) := by
  refine ⟨rfl, rfl, ?_, rfl⟩
  refine ⟨d.requires_python.toList.takeWhile (fun c => (['>', '='] : List Char).contains c),
    ?_, ?_⟩
  · rw [show (pyLstrip ['>', '='] d.requires_python).toList
        = d.requires_python.toList.dropWhile
            (fun c => (['>', '='] : List Char).contains c) from rfl]
    exact (List.takeWhile_append_dropWhile
      (p := fun c => (['>', '='] : List Char).contains c)
      (l := d.requires_python.toList)).symm
  · intro c hc
    have := List.mem_takeWhile_imp hc
    simpa using this

/-- C7 witness: a descriptor with `requires-python = ">=3.10"` and a
nonempty dependency list yields exactly the text `"3.10"`. -/
theorem C7_minpy_witness :
    bokeh_minpy ⟨">=3.10", ["numpy"]⟩ = ([Node.text (pyLstrip ['>', '='] ">=3.10")], []) ∧
    pyLstrip ['>', '='] ">=3.10" = "3.10" :=
  ⟨(C7_minpy ⟨">=3.10", ["numpy"]⟩).2.1, by decide⟩

theorem map_visibleText_listItem_text (l : List String) :
    (l.map (fun dep => Node.listItem (Node.text dep))).map Node.visibleText = l := by
  induction l with
  | nil => rfl
  | cons a as ih =>
    simp only [List.map_cons, ih]
    rfl

/-- C8: for every descriptor, `bokeh_requires` emits a single bulleted
list with exactly one list item per declared runtime dependency, in file
order, with zero messages; for the dependency list
`["numpy", "requests"]` the result is a two-item bulleted list with
items `"numpy"` and `"requests"` in that order. -/
theorem C8_requires (d : PyProject) :
    (bokeh_requires d).2 = [] ∧
    bokeh_requires d =
      ([Node.bulletList (d.dependencies.map (fun dep => Node.listItem (Node.text dep)))], []) ∧
    (∀ items, (bokeh_requires d).1 = [Node.bulletList items] →
      items.length = d.dependencies.length ∧ items.map Node.visibleText = d.dependencies) ∧
    bokeh_requires ⟨"", ["numpy", "requests"]⟩ =
      ([Node.bulletList [Node.listItem (Node.text "numpy"),
        Node.listItem (Node.text "requests")]], []) := by
  refine ⟨rfl, rfl, ?_, rfl⟩
  intro items hitems
  simp only [bokeh_requires, List.cons.injEq, and_true, Node.bulletList.injEq] at hitems
  subst hitems
  constructor
  · simp
  · exact map_visibleText_listItem_text d.dependencies

/-- C8 witness: the two-item instance, with items extracted in order. -/
theorem C8_requires_witness :
    [Node.listItem (Node.text "numpy"), Node.listItem (Node.text "requests")].length = 2 ∧
    [Node.listItem (Node.text "numpy"), Node.listItem (Node.text "requests")].map
      Node.visibleText = ["numpy", "requests"] := by
  have h := (C8_requires ⟨"", ["numpy", "requests"]⟩).2.2.1
    [Node.listItem (Node.text "numpy"), Node.listItem (Node.text "requests")] rfl
  exact ⟨h.1, h.2⟩

/-- C2 counterexample: the error message interpolates the offending
input with `repr` (the `{text!r}` conversion), which escapes
backslashes; for the invalid input `a\c` (a backslash between two
letters) the single error message of either role does not contain the
literal offending input. -/
theorem C2_counterexample :
    pyInt "a\\c" = none ∧
    (bokeh_issue "r" "a\\c" 1).2.length = 1 ∧
    (bokeh_pull "r" "a\\c" 1).2.length = 1 ∧
    (bokeh_issue "r" "a\\c" 1).2.all (fun m => !(strContains m.text "a\\c")) = true ∧
    (bokeh_pull "r" "a\\c" 1).2.all (fun m => !(strContains m.text "a\\c")) = true := by
  decide

/-- C2 (amended): for every input that fails validation (not parseable
as an integer, or parsing to a value ≤ 0), both numeric-id roles return
zero link nodes and exactly one error message; the message text contains
the Python `repr` of the offending input (a quoted rendering that
escapes backslashes, quotes and non-printable characters), and therefore
contains the literal offending input itself whenever the input consists
of printable ASCII characters other than backslash and quotes. -/
theorem C2_invalid_input (rawtext t : String) (lineno : Nat)
    (h : ∀ m : Int, pyInt t = some m → m ≤ 0) :
    bokeh_issue rawtext t lineno =
      ([Node.problematic rawtext rawtext], [⟨.error, issueErrorText t, lineno⟩]) ∧
    bokeh_pull rawtext t lineno =
      ([Node.problematic rawtext rawtext], [⟨.error, pullErrorText t, lineno⟩]) ∧
    ((bokeh_issue rawtext t lineno).1.filter Node.isLink).length = 0 ∧
    ((bokeh_pull rawtext t lineno).1.filter Node.isLink).length = 0 ∧
    strContains (issueErrorText t) (pyRepr t) = true ∧
    strContains (pullErrorText t) (pyRepr t) = true ∧
    ((∀ c ∈ t.toList, cleanChar c = true) →
      strContains (issueErrorText t) t = true ∧
      strContains (pullErrorText t) t = true) := by
  have hi : bokeh_issue rawtext t lineno =
      ([Node.problematic rawtext rawtext], [⟨.error, issueErrorText t, lineno⟩]) := by
    unfold bokeh_issue
    cases hp : pyInt t with
    | none => rfl
    | some m =>
      have hm := h m hp
      simp only [if_pos hm]
  have hpl : bokeh_pull rawtext t lineno =
      ([Node.problematic rawtext rawtext], [⟨.error, pullErrorText t, lineno⟩]) := by
    unfold bokeh_pull
    cases hp : pyInt t with
    | none => rfl
    | some m =>
      have hm := h m hp
      simp only [if_pos hm]
  refine ⟨hi, hpl, ?_, ?_, issueErrorText_contains_repr t, pullErrorText_contains_repr t, ?_⟩
  · rw [hi]; rfl
  · rw [hpl]; rfl
  · intro hc
    exact ⟨issueErrorText_contains_clean t hc, pullErrorText_contains_clean t hc⟩

/-- C2 witness: the non-numeric input `"abc"` produces the problematic
node and one error message, whose text contains `"abc"`. -/
theorem C2_invalid_input_witness :
    bokeh_issue "r" "abc" 2 =
      ([Node.problematic "r" "r"], [⟨.error, issueErrorText "abc", 2⟩]) ∧
    strContains (issueErrorText "abc") "abc" = true := by
  have h := C2_invalid_input "r" "abc" 2
    (fun m hm => by rw [show pyInt "abc" = none from rfl] at hm; exact Option.noConfusion hm)
  exact ⟨h.1, (h.2.2.2.2.2.2 (by decide)).1⟩

/-- C3 counterexample: on validation failure the numeric-id roles return
one output node (the problematic marker) together with one message, so
the result shape is (1 node, 1 message) — not the "zero output nodes and
exactly one message" alternative the claim allows. -/
theorem C3_counterexample :
    pyInt "x" = none ∧
    (bokeh_issue "r" "x" 1).1.length = 1 ∧
    (bokeh_issue "r" "x" 1).2.length = 1 ∧
    (bokeh_pull "r" "x" 1).1.length = 1 ∧
    (bokeh_pull "r" "x" 1).2.length = 1 := by
  decide

/-- C3 (amended): every invocation of the numeric-id roles returns
exactly one output node: on success (the text parses to a positive
integer) the node is a link and there are zero messages; on validation
failure the node is a problematic marker — not a link — and there is
exactly one message. -/
theorem C3_result_shape (rawtext t : String) (lineno : Nat) :
    ((bokeh_issue rawtext t lineno).1.length = 1 ∧
      (bokeh_pull rawtext t lineno).1.length = 1) ∧
    ((∃ n : Int, pyInt t = some n ∧ 0 < n) →
      (bokeh_issue rawtext t lineno).2 = [] ∧
      ((bokeh_issue rawtext t lineno).1.filter Node.isLink).length = 1 ∧
      (bokeh_pull rawtext t lineno).2 = [] ∧
      ((bokeh_pull rawtext t lineno).1.filter Node.isLink).length = 1) ∧
    ((∀ n : Int, pyInt t = some n → n ≤ 0) →
      (bokeh_issue rawtext t lineno).2.length = 1 ∧
      ((bokeh_issue rawtext t lineno).1.filter Node.isLink).length = 0 ∧
      (bokeh_issue rawtext t lineno).1 = [Node.problematic rawtext rawtext] ∧
      (bokeh_pull rawtext t lineno).2.length = 1 ∧
      ((bokeh_pull rawtext t lineno).1.filter Node.isLink).length = 0 ∧
      (bokeh_pull rawtext t lineno).1 = [Node.problematic rawtext rawtext]) := by
  refine ⟨⟨?_, ?_⟩, ?_, ?_⟩
  · unfold bokeh_issue
    cases pyInt t with
    | none => rfl
    | some m =>
      by_cases hm : m ≤ 0
      · simp only [if_pos hm]
        rfl
      · simp only [if_neg hm]
        rfl
  · unfold bokeh_pull
    cases pyInt t with
    | none => rfl
    | some m =>
      by_cases hm : m ≤ 0
      · simp only [if_pos hm]
        rfl
      · simp only [if_neg hm]
        rfl
  · rintro ⟨n, hp, hpos⟩
    have hne : ¬ n ≤ 0 := by omega
    have hi : bokeh_issue rawtext t lineno =
        ([make_gh_link_node rawtext "issue" "#" "issues" (pyStr n)], []) := by
      unfold bokeh_issue
      rw [hp]
      simp only [if_neg hne]
    have hpu : bokeh_pull rawtext t lineno =
        ([make_gh_link_node rawtext "pull" "pull request " "pull" (pyStr n)], []) := by
      unfold bokeh_pull
      rw [hp]
      simp only [if_neg hne]
    rw [hi, hpu]
    exact ⟨rfl, rfl, rfl, rfl⟩
  · intro h
    have hi : bokeh_issue rawtext t lineno =
        ([Node.problematic rawtext rawtext], [⟨.error, issueErrorText t, lineno⟩]) := by
      unfold bokeh_issue
      cases hp : pyInt t with
      | none => rfl
      | some m => simp only [if_pos (h m hp)]
    have hpu : bokeh_pull rawtext t lineno =
        ([Node.problematic rawtext rawtext], [⟨.error, pullErrorText t, lineno⟩]) := by
      unfold bokeh_pull
      cases hp : pyInt t with
      | none => rfl
      | some m => simp only [if_pos (h m hp)]
    rw [hi, hpu]
    exact ⟨rfl, rfl, rfl, rfl, rfl, rfl⟩

/-- C3 witness: the valid input `"42"` takes the success shape. -/
theorem C3_result_shape_witness :
    (bokeh_issue "r" "42" 1).2 = [] ∧
    ((bokeh_issue "r" "42" 1).1.filter Node.isLink).length = 1 := by
  have h := (C3_result_shape "r" "42" 1).2.1 ⟨42, by decide, by decide⟩
  exact ⟨h.1, h.2.1⟩

/-- C6: `bokeh_pull` behaves as `bokeh_issue` under substitution: for
the same input, on success the results differ only in the visible-text
prefix (`"pull request "` instead of `"#"`) and the API path segment
(`"pull"` instead of `"issues"`); on failure both return the same
problematic marker node and one error message instantiating a common
template, differing only in naming `"Github pull request"` instead of
`"Github issue"`. -/
theorem C6_pull_mirrors_issue (rawtext t : String) (lineno : Nat) :
    (∀ n : Int, pyInt t = some n → 0 < n →
      bokeh_issue rawtext t lineno =
        ([Node.reference rawtext ("#" ++ pyStr n) (BOKEH_GH ++ "/issues/" ++ pyStr n)], []) ∧
      bokeh_pull rawtext t lineno =
        ([Node.reference rawtext ("pull request " ++ pyStr n)
          (BOKEH_GH ++ "/pull/" ++ pyStr n)], [])) ∧
    ((∀ n : Int, pyInt t = some n → n ≤ 0) →
      ∃ rest : String,
        bokeh_issue rawtext t lineno =
          ([Node.problematic rawtext rawtext], [⟨.error, "Github issue" ++ rest, lineno⟩]) ∧
        bokeh_pull rawtext t lineno =
          ([Node.problematic rawtext rawtext],
            [⟨.error, "Github pull request" ++ rest, lineno⟩])) := by
  constructor
  · intro n hp hpos
    have hne : ¬ n ≤ 0 := by omega
    constructor
    · unfold bokeh_issue
      rw [hp]
      simp only [if_neg hne]
      unfold make_gh_link_node
      rw [unescape_pyStr, issues_url]
    · unfold bokeh_pull
      rw [hp]
      simp only [if_neg hne]
      unfold make_gh_link_node
      rw [unescape_pyStr, pull_url]
  · intro h
    have hi : bokeh_issue rawtext t lineno =
        ([Node.problematic rawtext rawtext], [⟨.error, issueErrorText t, lineno⟩]) := by
      unfold bokeh_issue
      cases hp : pyInt t with
      | none => rfl
      | some m => simp only [if_pos (h m hp)]
    have hpu : bokeh_pull rawtext t lineno =
        ([Node.problematic rawtext rawtext], [⟨.error, pullErrorText t, lineno⟩]) := by
      unfold bokeh_pull
      cases hp : pyInt t with
      | none => rfl
      | some m => simp only [if_pos (h m hp)]
    refine ⟨" number must be a number greater than or equal to 1; " ++ pyRepr t
      ++ " is invalid.", ?_, ?_⟩
    · rw [hi, issueErrorText_split]
    · rw [hpu, pullErrorText_split]

/-- C6 witness: for the input `"1694"` both roles succeed with the
substituted prefix and path. -/
theorem C6_pull_mirrors_issue_witness :
    bokeh_issue "r" "1694" 5 =
      ([Node.reference "r" ("#" ++ pyStr 1694) (BOKEH_GH ++ "/issues/" ++ pyStr 1694)], []) ∧
    bokeh_pull "r" "1694" 5 =
      ([Node.reference "r" ("pull request " ++ pyStr 1694)
        (BOKEH_GH ++ "/pull/" ++ pyStr 1694)], []) :=
  (C6_pull_mirrors_issue "r" "1694" 5).1 1694 (by decide) (by decide)

end Bokeh
